import Mathlib

/-!
Verification of the fixr-perps client-side calculation and encoding layer.

The development shallowly embeds the numeric and payload-construction logic
of `src/lib/gmx.ts` over exact rational arithmetic (`ℚ`) and unbounded
integers: JavaScript `number` values become `ℚ`, `bigint` values become `ℤ`
or `ℕ`, byte-level ABI encoding of multicall sub-calls is represented as a
structured list of sub-call records (the byte encoding itself is performed
by the external `viem` library and is out of scope), and display-string
formatting (`toLocaleString`, sign prefixes) is dropped in favour of the
exact numeric values it formats.

JavaScript primitives used by the source are modelled as follows:
* `Math.round x` is `⌊x + 1/2⌋` (round half towards +∞), as `jsRound`;
* `x.toFixed 2` is `⌊100 x + 1/2⌋ / 100` (the ECMAScript spec picks the
  closest 2-decimal value, larger on ties), as `jsToFixed2`;
* `viem.parseUnits s d` on the decimal string of `x` is `⌊x·10^d + 1/2⌋`,
  as `parseUnitsQ`; on inputs with at most `d` decimal places this is the
  exact product `x·10^d`;
* `viem.formatUnits n d` is `n / 10^d` exactly;
* `s.toLowerCase()` is character-wise lowering, as `jsToLower`;
* the numeric literals `1.02`, `0.98`, `0.0005`, `0.0001`, `0.01` are read
  as the exact rationals they denote.
-/

namespace FixrPerps

/-- Ethereum addresses are modelled as their hex strings. -/
abbrev Addr := String

/-- JavaScript `Math.round`: round half towards positive infinity. -/
def jsRound (q : ℚ) : ℤ := ⌊q + 1/2⌋

/-- JavaScript `Number.prototype.toFixed(2)`: the nearest 2-decimal value,
with ties resolved upward (ECMAScript picks the larger candidate). -/
def jsToFixed2 (q : ℚ) : ℚ := (⌊q * 100 + 1/2⌋ : ℚ) / 100

/-- Model of `viem` `parseUnits` applied to the decimal string of a rational:
scale by `10^d` and round half up. -/
def parseUnitsQ (q : ℚ) (d : ℕ) : ℤ := ⌊q * 10 ^ d + 1/2⌋

/-- Character-wise `String.prototype.toLowerCase()` (expressed over the
character list so that it evaluates by structural recursion). -/
def jsToLower (s : String) : String := String.mk (s.data.map Char.toLower)

/-! Token addresses from `src/lib/arbitrum.ts` (`TOKENS`). -/

def TOKENS_WETH : Addr := "0x82aF49447D8a07e3bd95BD0d56f35241523fBab1"

def TOKENS_USDC : Addr := "0xaf88d065e77c8cC2239327C5EDb3A432268e5831"

def TOKENS_ARB : Addr := "0x912CE59144191C1204E64559FE8253a0e49E6548"

def TOKENS_WBTC : Addr := "0x2f2a2543B76A4166549F7aaB2e75Bef0aefC5B0f"

def TOKENS_LINK : Addr := "0xf97f4df75117a78c1A5a0DBb814Af92458539FB4"

/-- The order vault address (`GMX_CONTRACTS.OrderVault`). -/
def GMX_ORDER_VAULT : Addr := "0x31eF83a530Fde1B38EE9A18093A333D8Bbbc40D5"

/-- The zero address used for unused optional address fields. -/
def ZERO_ADDRESS : Addr := "0x0000000000000000000000000000000000000000"

/-- The empty referral code (`FIXR_REFERRAL_CODE`). -/
def FIXR_REFERRAL_CODE : String :=
  "0x0000000000000000000000000000000000000000000000000000000000000000"

/-- The four tracked markets (`GMX_MARKETS` keys in `src/lib/gmx.ts`). -/
inductive MarketKey where
  | ETHUSD
  | BTCUSD
  | ARBUSD
  | LINKUSD
deriving DecidableEq, Repr

/-- Static per-market information (`GMX_MARKETS` entries). -/
structure MarketInfo where
  marketToken : Addr
  indexToken : Addr
  longToken : Addr
  shortToken : Addr
  symbol : String
  coingeckoId : String

/-- The `GMX_MARKETS` table from `src/lib/gmx.ts`. -/
def GMX_MARKETS : MarketKey → MarketInfo
  | .ETHUSD =>
    { marketToken := "0x70d95587d40A2caf56bd97485aB3Eec10Bee6336"
      indexToken := TOKENS_WETH, longToken := TOKENS_WETH, shortToken := TOKENS_USDC
      symbol := "ETH", coingeckoId := "ethereum" }
  | .BTCUSD =>
    { marketToken := "0x47c031236e19d024b42f8AE6780E44A573170703"
      indexToken := TOKENS_WBTC, longToken := TOKENS_WBTC, shortToken := TOKENS_USDC
      symbol := "BTC", coingeckoId := "bitcoin" }
  | .ARBUSD =>
    { marketToken := "0xC25cEf6061Cf5dE5eb761b50E4743c1F5D7E5407"
      indexToken := TOKENS_ARB, longToken := TOKENS_ARB, shortToken := TOKENS_USDC
      symbol := "ARB", coingeckoId := "arbitrum" }
  | .LINKUSD =>
    { marketToken := "0x7f1fa204bb700853D36994DA19F830b6Ad18455C"
      indexToken := TOKENS_LINK, longToken := TOKENS_LINK, shortToken := TOKENS_USDC
      symbol := "LINK", coingeckoId := "chainlink" }

/-- Per-market index-token decimals (`INDEX_TOKEN_DECIMALS`), used when
encoding prices in the protocol convention. -/
def INDEX_TOKEN_DECIMALS : MarketKey → ℕ
  | .ETHUSD => 18
  | .BTCUSD => 8
  | .ARBUSD => 18
  | .LINKUSD => 18

/-! Trade math from `src/lib/gmx.ts`. -/

/-- The exported `calculatePnL` function: returns `(pnl, pnlPercent)`. -/
def calculatePnL (isLong : Bool) (entryPrice currentPrice size : ℚ) : ℚ × ℚ :=
  let priceDiff := if isLong then currentPrice - entryPrice else entryPrice - currentPrice
  let pnl := (priceDiff / entryPrice) * size
  let pnlPercent := (priceDiff / entryPrice) * 100
  (pnl, pnlPercent)

/-- The `calculateLiquidationPrice` function; the source defaults
`maintenanceMargin` to `0.01`, callers here pass it explicitly. -/
def calculateLiquidationPrice (isLong : Bool) (entryPrice leverage maintenanceMargin : ℚ) : ℚ :=
  let liquidationThreshold := 1 / leverage - maintenanceMargin
  if isLong then
    entryPrice * (1 - liquidationThreshold)
  else
    entryPrice * (1 + liquidationThreshold)

/-- Trade parameters (`TradeParams`); the optional slippage field is unused
by `calculateTradePreview` and omitted. -/
structure TradeParams where
  market : MarketKey
  isLong : Bool
  collateral : ℚ
  leverage : ℚ

/-- Result record of `calculateTradePreview`. -/
structure TradePreview where
  size : ℚ
  entryPrice : ℚ
  liquidationPrice : ℚ
  fees : ℚ
  margin : ℚ
  leverage : ℚ

/-- The `calculateTradePreview` function; `1/100` is the source's default
`maintenanceMargin` of the liquidation-price call. -/
def calculateTradePreview (params : TradeParams) (currentPrice : ℚ) : TradePreview :=
  let size := params.collateral * params.leverage
  let positionFee := size * (5/10000)
  let executionFee := (1/10000) * currentPrice
  let fees := positionFee + executionFee
  let liquidationPrice := calculateLiquidationPrice params.isLong currentPrice params.leverage (1/100)
  { size := size
    entryPrice := currentPrice
    liquidationPrice := liquidationPrice
    fees := fees
    margin := params.collateral
    leverage := params.leverage }

/-- The `calculateAcceptablePrice` function (slippage bias for OPENING);
the source defaults `slippagePercent` to `0.5`, callers pass it explicitly. -/
def calculateAcceptablePrice (price : ℚ) (isLong : Bool) (slippagePercent : ℚ) : ℚ :=
  let slippageMultiplier := slippagePercent / 100
  if isLong then
    price * (1 + slippageMultiplier)
  else
    price * (1 - slippageMultiplier)

/-- The `calculateAcceptablePriceForClose` function (slippage bias for
CLOSING, opposite direction from opening). -/
def calculateAcceptablePriceForClose (price : ℚ) (isLong : Bool) (slippagePercent : ℚ) : ℚ :=
  let slippageMultiplier := slippagePercent / 100
  if isLong then
    price * (1 - slippageMultiplier)
  else
    price * (1 + slippageMultiplier)

/-! Unit conversion and order payload construction. -/

/-- The `convertToContractPrice` function: round the price to two decimals
via `toFixed(2)` and parse the resulting decimal string at precision
`30 − tokenDecimals`. -/
def convertToContractPrice (price : ℚ) (tokenDecimals : ℕ) : ℤ :=
  let precision := 30 - tokenDecimals
  parseUnitsQ (jsToFixed2 price) precision

/-- The `EXECUTION_FEE` constant: `parseUnits('0.0003', 18)`. -/
def EXECUTION_FEE : ℤ := parseUnitsQ (3/10000) 18

/-- Order type enumeration entry `ORDER_TYPE.MarketIncrease`. -/
def ORDER_TYPE_MarketIncrease : ℕ := 2

/-- Order type enumeration entry `ORDER_TYPE.MarketDecrease`. -/
def ORDER_TYPE_MarketDecrease : ℕ := 4

/-- Decrease-position swap type `DECREASE_POSITION_SWAP_TYPE.NoSwap`. -/
def DECREASE_POSITION_SWAP_TYPE_NoSwap : ℕ := 0

/-- Address block of the `createOrder` argument tuple. -/
structure OrderAddresses where
  receiver : Addr
  cancellationReceiver : Addr
  callbackContract : Addr
  uiFeeReceiver : Addr
  market : Addr
  initialCollateralToken : Addr
  swapPath : List Addr
deriving DecidableEq, Repr

/-- Number block of the `createOrder` argument tuple. -/
structure OrderNumbers where
  sizeDeltaUsd : ℤ
  initialCollateralDeltaAmount : ℤ
  triggerPrice : ℤ
  acceptablePrice : ℤ
  executionFee : ℤ
  callbackGasLimit : ℤ
  minOutputAmount : ℤ
  validFromTime : ℤ
deriving DecidableEq, Repr

/-- The full `createOrder` argument tuple. -/
structure OrderParams where
  addresses : OrderAddresses
  numbers : OrderNumbers
  orderType : ℕ
  decreasePositionSwapType : ℕ
  isLong : Bool
  shouldUnwrapNativeToken : Bool
  autoCancel : Bool
  referralCode : String
  dataList : List String
deriving DecidableEq, Repr

/-- One pre-encoded sub-call of the multicall payload. -/
inductive SubCall where
  | sendWnt (receiver : Addr) (amount : ℤ)
  | sendTokens (token receiver : Addr) (amount : ℤ)
  | createOrder (params : OrderParams)
deriving DecidableEq, Repr

/-- Return value of the payload builders: the multicall sub-call list and
the native-asset value to attach. -/
structure BuiltTx where
  calls : List SubCall
  value : ℤ
deriving DecidableEq, Repr

/-- Open-order intent (`CreateOrderParams`). -/
structure CreateOrderParams where
  market : MarketKey
  isLong : Bool
  collateralAmount : ℚ
  sizeDeltaUsd : ℚ
  acceptablePrice : ℚ
  account : Addr

/-- Close-order intent (`ClosePositionParams`). -/
structure ClosePositionParams where
  market : MarketKey
  isLong : Bool
  sizeDeltaUsd : ℚ
  collateralDeltaUsd : ℚ
  acceptablePrice : ℚ
  account : Addr

/-- The order record built inside `buildCreateOrderCalldata`
(source lines 638–665). -/
def openOrderParams (params : CreateOrderParams) : OrderParams :=
  let marketInfo := GMX_MARKETS params.market
  let tokenDecimals := INDEX_TOKEN_DECIMALS params.market
  let sizeDeltaUsdBigInt := parseUnitsQ params.sizeDeltaUsd 30
  let acceptablePriceBigInt := convertToContractPrice params.acceptablePrice tokenDecimals
  { addresses :=
    { receiver := params.account
      cancellationReceiver := ZERO_ADDRESS
      callbackContract := ZERO_ADDRESS
      uiFeeReceiver := ZERO_ADDRESS
      market := marketInfo.marketToken
      initialCollateralToken := TOKENS_USDC
      swapPath := [] }
    numbers :=
    { sizeDeltaUsd := sizeDeltaUsdBigInt
      initialCollateralDeltaAmount := 0
      triggerPrice := 0
      acceptablePrice := acceptablePriceBigInt
      executionFee := EXECUTION_FEE
      callbackGasLimit := 0
      minOutputAmount := 0
      validFromTime := 0 }
    orderType := ORDER_TYPE_MarketIncrease
    decreasePositionSwapType := DECREASE_POSITION_SWAP_TYPE_NoSwap
    isLong := params.isLong
    shouldUnwrapNativeToken := false
    autoCancel := false
    referralCode := FIXR_REFERRAL_CODE
    dataList := [] }

/-- The `buildCreateOrderCalldata` function: a three-call multicall
(`sendWnt` execution fee, `sendTokens` collateral, `createOrder`) plus the
attached native value. -/
def buildCreateOrderCalldata (params : CreateOrderParams) : BuiltTx :=
  let collateralAmountBigInt := parseUnitsQ params.collateralAmount 6
  { calls :=
      [ SubCall.sendWnt GMX_ORDER_VAULT EXECUTION_FEE
      , SubCall.sendTokens TOKENS_USDC GMX_ORDER_VAULT collateralAmountBigInt
      , SubCall.createOrder (openOrderParams params) ]
    value := EXECUTION_FEE }

/-- The order record built inside `buildClosePositionCalldata`
(source lines 803–830). -/
def closeOrderParams (params : ClosePositionParams) : OrderParams :=
  let marketInfo := GMX_MARKETS params.market
  let tokenDecimals := INDEX_TOKEN_DECIMALS params.market
  let sizeDeltaUsdBigInt := parseUnitsQ params.sizeDeltaUsd 30
  let collateralDeltaAmountBigInt := parseUnitsQ params.collateralDeltaUsd 6
  let acceptablePriceBigInt := convertToContractPrice params.acceptablePrice tokenDecimals
  { addresses :=
    { receiver := params.account
      cancellationReceiver := ZERO_ADDRESS
      callbackContract := ZERO_ADDRESS
      uiFeeReceiver := ZERO_ADDRESS
      market := marketInfo.marketToken
      initialCollateralToken := TOKENS_USDC
      swapPath := [] }
    numbers :=
    { sizeDeltaUsd := sizeDeltaUsdBigInt
      initialCollateralDeltaAmount := collateralDeltaAmountBigInt
      triggerPrice := 0
      acceptablePrice := acceptablePriceBigInt
      executionFee := EXECUTION_FEE
      callbackGasLimit := 0
      minOutputAmount := 0
      validFromTime := 0 }
    orderType := ORDER_TYPE_MarketDecrease
    decreasePositionSwapType := DECREASE_POSITION_SWAP_TYPE_NoSwap
    isLong := params.isLong
    shouldUnwrapNativeToken := false
    autoCancel := false
    referralCode := FIXR_REFERRAL_CODE
    dataList := [] }

/-- The `buildClosePositionCalldata` function: a two-call multicall
(`sendWnt` execution fee, `createOrder`) plus the attached native value. -/
def buildClosePositionCalldata (params : ClosePositionParams) : BuiltTx :=
  { calls :=
      [ SubCall.sendWnt GMX_ORDER_VAULT EXECUTION_FEE
      , SubCall.createOrder (closeOrderParams params) ]
    value := EXECUTION_FEE }

/-! Position reconstruction (`getPositions` in `src/lib/gmx.ts`). -/

/-- Address block of a raw on-chain position tuple. -/
structure RawPositionAddresses where
  account : Addr
  market : Addr
  collateralToken : Addr
deriving DecidableEq, Repr

/-- Number block of a raw tuple; only the three fields the reconstructor
consumes are kept (the fee-accumulator and block fields are unused). -/
structure RawPositionNumbers where
  sizeInUsd : ℕ
  sizeInTokens : ℕ
  collateralAmount : ℕ
deriving DecidableEq, Repr

/-- Flag block of a raw tuple. -/
structure RawPositionFlags where
  isLong : Bool
deriving DecidableEq, Repr

/-- A raw on-chain position tuple as returned by the reader contract. -/
structure RawPosition where
  addresses : RawPositionAddresses
  numbers : RawPositionNumbers
  flags : RawPositionFlags
deriving DecidableEq, Repr

/-- The `MARKET_ADDRESS_TO_KEY` lookup: keys are the lowercased market
token addresses of the four tracked markets. -/
def MARKET_ADDRESS_TO_KEY (a : Addr) : Option MarketKey :=
  if a = jsToLower (GMX_MARKETS .ETHUSD).marketToken then some .ETHUSD
  else if a = jsToLower (GMX_MARKETS .BTCUSD).marketToken then some .BTCUSD
  else if a = jsToLower (GMX_MARKETS .ARBUSD).marketToken then some .ARBUSD
  else if a = jsToLower (GMX_MARKETS .LINKUSD).marketToken then some .LINKUSD
  else none

/-- A reconstructed position; the source stores several fields as display
strings, here the exact numeric values behind those strings are kept
(`leverage` keeps the source's rounding to one decimal place). -/
structure Position where
  market : MarketKey
  isLong : Bool
  size : ℚ
  collateral : ℚ
  entryPrice : ℚ
  markPrice : ℚ
  leverage : ℚ
  pnl : ℚ
  pnlPercent : ℚ
  liquidationPrice : ℚ
deriving DecidableEq, Repr

/-- The position record built by the loop body of `getPositions`
(source lines 317–349). Note the source converts `sizeInTokens` with a
hard-coded 18 decimal places for every market. -/
def mkPosition (marketKey : MarketKey) (currentPrice : ℚ) (pos : RawPosition) : Position :=
  let sizeUsd : ℚ := (pos.numbers.sizeInUsd : ℚ) / 10 ^ 30
  let collateralAmount : ℚ := (pos.numbers.collateralAmount : ℚ) / 10 ^ 6
  let isLong := pos.flags.isLong
  let leverage := sizeUsd / collateralAmount
  let entryPrice := sizeUsd / ((pos.numbers.sizeInTokens : ℚ) / 10 ^ 18)
  let priceDiff := if isLong then currentPrice - entryPrice else entryPrice - currentPrice
  let pnl := (priceDiff / entryPrice) * sizeUsd
  let pnlPercent := (pnl / collateralAmount) * 100
  let liqThreshold := 1 / leverage - 1/100
  let liquidationPrice :=
    if isLong then entryPrice * (1 - liqThreshold) else entryPrice * (1 + liqThreshold)
  { market := marketKey
    isLong := isLong
    size := sizeUsd
    collateral := collateralAmount
    entryPrice := entryPrice
    markPrice := currentPrice
    leverage := (jsRound (leverage * 10) : ℚ) / 10
    pnl := pnl
    pnlPercent := pnlPercent
    liquidationPrice := liquidationPrice }

/-- The per-tuple loop of `getPositions`: skip untracked markets, skip
tuples whose market price fetch fails, skip zero-size tuples, keep the
rest. `priceOf` models the per-market oracle outcome; the per-call price
cache of the source is observationally identical to calling it directly. -/
def positionsLoop (priceOf : MarketKey → Option ℚ) : List RawPosition → List Position
  | [] => []
  | pos :: rest =>
    match MARKET_ADDRESS_TO_KEY (jsToLower pos.addresses.market) with
    | none => positionsLoop priceOf rest
    | some marketKey =>
      match priceOf marketKey with
      | none => positionsLoop priceOf rest
      | some currentPrice =>
        if (pos.numbers.sizeInUsd : ℚ) / 10 ^ 30 = 0 then
          positionsLoop priceOf rest
        else
          mkPosition marketKey currentPrice pos :: positionsLoop priceOf rest

/-- The `getPositions` entry point around the loop: a failed or empty read
(`none` models a thrown read) yields the empty list. -/
def getPositions (priceOf : MarketKey → Option ℚ) : Option (List RawPosition) → List Position
  | none => []
  | some raw => if raw.length = 0 then [] else positionsLoop priceOf raw

/-- The claim's keep-predicate on raw tuples: tracked market and nonzero
size. -/
def trackedNonzero (pos : RawPosition) : Bool :=
  (MARKET_ADDRESS_TO_KEY (jsToLower pos.addresses.market)).isSome &&
    pos.numbers.sizeInUsd != 0

/-- The position a kept tuple is mapped to, expressed from the tuple alone
(the fallback branches are unreachable for kept tuples). -/
def mkPositionOf (priceOf : MarketKey → Option ℚ) (pos : RawPosition) : Position :=
  match MARKET_ADDRESS_TO_KEY (jsToLower pos.addresses.market) with
  | some k => mkPosition k ((priceOf k).getD 0) pos
  | none => mkPosition .ETHUSD 0 pos

/-- Modelled from the spec (section 4.4): the entry price derived with each
quantity converted from its native fixed-point precision — 30 decimals for
`sizeInUsd` and the market's index-token decimals for `sizeInTokens`. Used
to compare the source's hard-coded 18-decimal conversion against the
specified one. -/
def specEntryPrice (m : MarketKey) (sizeInUsd sizeInTokens : ℕ) : ℚ :=
  ((sizeInUsd : ℚ) / 10 ^ 30) / ((sizeInTokens : ℚ) / 10 ^ (INDEX_TOKEN_DECIMALS m))

/-- Modelled from the spec (section 4.1): a price rounded to two decimal
places, the rounding the spec requires before fixed-point conversion. -/
def round2Spec (p : ℚ) : ℚ := (jsRound (p * 100) : ℚ) / 100

/-! Market data aggregation (`getMarketData`, `getAllMarkets`). -/

/-- One asset's 24h statistics from the secondary source. -/
structure CoinData where
  price : ℚ
  change24h : ℚ
  high24h : ℚ
  low24h : ℚ
  volume24h : ℚ
deriving DecidableEq, Repr

/-- A market snapshot (`MarketData`). -/
structure MarketData where
  market : MarketKey
  price : ℚ
  change24h : ℚ
  high24h : ℚ
  low24h : ℚ
  volume24h : ℚ
  openInterestLong : ℚ
  openInterestShort : ℚ
  fundingRate : ℚ
  maxLeverage : ℚ
deriving DecidableEq, Repr

/-- The `getMarketData` function. `chainlinkPrice` is the outcome of the
primary oracle call (`none` models its caught rejection) and `coinData`
the secondary source's entry for this market (`none` models a missing or
failed 24h fetch); with both inputs explicit the function is total — no
exception escapes. -/
def getMarketData (market : MarketKey) (chainlinkPrice : Option ℚ)
    (coinData : Option CoinData) : MarketData :=
  let price :=
    match chainlinkPrice with
    | some p => p
    | none =>
      match coinData with
      | some c => c.price
      | none => 0
  { market := market
    price := price
    change24h := match coinData with | some c => c.change24h | none => 0
    high24h := match coinData with | some c => c.high24h | none => price * (102/100)
    low24h := match coinData with | some c => c.low24h | none => price * (98/100)
    volume24h := match coinData with | some c => c.volume24h | none => 0
    openInterestLong := 0
    openInterestShort := 0
    fundingRate := 0
    maxLeverage := if market = .ETHUSD ∨ market = .BTCUSD then 100 else 50 }

/-- The tracked market keys in source order (`Object.keys(GMX_MARKETS)`). -/
def marketsList : List MarketKey := [.ETHUSD, .BTCUSD, .ARBUSD, .LINKUSD]

/-- The `getAllMarkets` batch: every market's snapshot is produced from its
own source outcomes; since `getMarketData` is total, every promise of the
source's `Promise.allSettled` fulfills and no snapshot is dropped. -/
def getAllMarkets (chainlink : MarketKey → Option ℚ)
    (hist : MarketKey → Option CoinData) : List MarketData :=
  marketsList.map fun m => getMarketData m (chainlink m) (hist m)

/-! Concrete inputs used by counterexamples and witnesses. -/

/-- An open ETH long: 1 ETH of size at entry 3000, collateral 300 USDC. -/
def ethRawLong : RawPosition :=
  { addresses :=
    { account := "0x1111111111111111111111111111111111111111"
      market := "0x70d95587d40A2caf56bd97485aB3Eec10Bee6336"
      collateralToken := TOKENS_USDC }
    numbers :=
    { sizeInUsd := 3000 * 10 ^ 30
      sizeInTokens := 10 ^ 18
      collateralAmount := 300 * 10 ^ 6 }
    flags := { isLong := true } }

/-- A closed slot in the ETH market: zero size. -/
def ethRawClosed : RawPosition :=
  { addresses :=
    { account := "0x1111111111111111111111111111111111111111"
      market := "0x70d95587d40A2caf56bd97485aB3Eec10Bee6336"
      collateralToken := TOKENS_USDC }
    numbers := { sizeInUsd := 0, sizeInTokens := 0, collateralAmount := 0 }
    flags := { isLong := false } }

/-- An open BTC long: one WBTC (8 decimals, `10^8` base units) of size at
entry 60000, collateral 10000 USDC. -/
def btcRawLong : RawPosition :=
  { addresses :=
    { account := "0x1111111111111111111111111111111111111111"
      market := "0x47c031236e19d024b42f8AE6780E44A573170703"
      collateralToken := TOKENS_USDC }
    numbers :=
    { sizeInUsd := 60000 * 10 ^ 30
      sizeInTokens := 10 ^ 8
      collateralAmount := 10000 * 10 ^ 6 }
    flags := { isLong := true } }

/-- A price environment where every tracked market's oracle succeeds. -/
def demoPriceOf : MarketKey → Option ℚ
  | .ETHUSD => some 3000
  | .BTCUSD => some 60000
  | .ARBUSD => some 1
  | .LINKUSD => some 10

/-- An open intent whose price input is zero. -/
def zeroPriceOpenIntent : CreateOrderParams :=
  { market := .ETHUSD, isLong := true, collateralAmount := 100,
    sizeDeltaUsd := 1000, acceptablePrice := 0,
    account := "0x1111111111111111111111111111111111111111" }

/-- A close intent whose price input is zero. -/
def zeroPriceCloseIntent : ClosePositionParams :=
  { market := .ETHUSD, isLong := true, sizeDeltaUsd := 1000,
    collateralDeltaUsd := 100, acceptablePrice := 0,
    account := "0x1111111111111111111111111111111111111111" }

/-! Helper lemmas. -/

lemma floor_half : ⌊(1/2 : ℚ)⌋ = 0 := by
  rw [Int.floor_eq_zero_iff, Set.mem_Ico]
  norm_num

lemma floor_intCast_add_half (k : ℤ) : ⌊(k : ℚ) + 1/2⌋ = k := by
  rw [add_comm, Int.floor_add_int, floor_half, zero_add]

lemma parseUnitsQ_eq_of_int (q : ℚ) (d : ℕ) (k : ℤ) (h : q * 10 ^ d = (k : ℚ)) :
    parseUnitsQ q d = k := by
  unfold parseUnitsQ
  rw [h, floor_intCast_add_half]

lemma parseUnitsQ_two_decimals (k : ℤ) (f : ℕ) :
    parseUnitsQ ((k : ℚ) / 100) (2 + f) = k * 10 ^ f := by
  apply parseUnitsQ_eq_of_int
  push_cast [pow_add]
  ring

lemma convert_eq_round2 (p : ℚ) (f : ℕ) :
    (parseUnitsQ (jsToFixed2 p) (2 + f) : ℚ) = round2Spec p * 10 ^ (2 + f) := by
  have hj : jsToFixed2 p = (⌊p * 100 + 1/2⌋ : ℚ) / 100 := rfl
  rw [hj, parseUnitsQ_two_decimals ⌊p * 100 + 1/2⌋ f]
  unfold round2Spec jsRound
  push_cast [pow_add]
  ring

lemma EXECUTION_FEE_eq : EXECUTION_FEE = 3 * 10 ^ 14 := by
  unfold EXECUTION_FEE
  apply parseUnitsQ_eq_of_int
  norm_num

lemma jsToFixed2_zero : jsToFixed2 0 = 0 := by
  unfold jsToFixed2
  norm_num [floor_half]

lemma convertToContractPrice_zero (d : ℕ) : convertToContractPrice 0 d = 0 := by
  unfold convertToContractPrice
  apply parseUnitsQ_eq_of_int
  rw [jsToFixed2_zero]
  norm_num

lemma market_key_of_ethRawLong :
    MARKET_ADDRESS_TO_KEY (jsToLower ethRawLong.addresses.market) = some .ETHUSD := by
  decide

lemma market_key_of_ethRawClosed :
    MARKET_ADDRESS_TO_KEY (jsToLower ethRawClosed.addresses.market) = some .ETHUSD := by
  decide

lemma market_key_of_btcRawLong :
    MARKET_ADDRESS_TO_KEY (jsToLower btcRawLong.addresses.market) = some .BTCUSD := by
  decide

lemma ethRawLong_size : ethRawLong.numbers.sizeInUsd = 3000 * 10 ^ 30 := rfl

lemma ethRawClosed_size : ethRawClosed.numbers.sizeInUsd = 0 := rfl

lemma btcRawLong_size : btcRawLong.numbers.sizeInUsd = 60000 * 10 ^ 30 := rfl

lemma demo_loop_eval :
    positionsLoop demoPriceOf [ethRawLong, ethRawClosed, btcRawLong] =
      [mkPosition .ETHUSD 3000 ethRawLong, mkPosition .BTCUSD 60000 btcRawLong] := by
  simp [positionsLoop, market_key_of_ethRawLong, market_key_of_ethRawClosed,
    market_key_of_btcRawLong, demoPriceOf]
  norm_num [ethRawLong_size, ethRawClosed_size, btcRawLong_size]

/-! Claim theorems. -/

/-- C3: opening a long and closing a short both bias the acceptable price
upward to `p(1 + s/100)`; opening a short and closing a long both bias it
downward to `p(1 − s/100)`; at price 3000 and slippage 1 the four cases
give 3030, 3030, 2970, 2970. -/
theorem acceptable_price_open_close_bias (p s : ℚ) (_hp : 0 < p) :
    calculateAcceptablePrice p true s = p * (1 + s / 100) ∧
    calculateAcceptablePriceForClose p false s = p * (1 + s / 100) ∧
    calculateAcceptablePrice p false s = p * (1 - s / 100) ∧
    calculateAcceptablePriceForClose p true s = p * (1 - s / 100) ∧
    calculateAcceptablePrice 3000 true 1 = 3030 ∧
    calculateAcceptablePriceForClose 3000 false 1 = 3030 ∧
    calculateAcceptablePrice 3000 false 1 = 2970 ∧
    calculateAcceptablePriceForClose 3000 true 1 = 2970 := by
  refine ⟨rfl, rfl, rfl, rfl, ?_, ?_, ?_, ?_⟩ <;>
    norm_num [calculateAcceptablePrice, calculateAcceptablePriceForClose]

/-- Witness for `acceptable_price_open_close_bias` at price 3000, slippage 1. -/
theorem acceptable_price_open_close_bias_witness :
    calculateAcceptablePrice 3000 true 1 = 3000 * (1 + 1 / 100) ∧
    calculateAcceptablePriceForClose 3000 true 1 = 3000 * (1 - 1 / 100) :=
  ⟨(acceptable_price_open_close_bias 3000 1 (by norm_num)).1,
   (acceptable_price_open_close_bias 3000 1 (by norm_num)).2.2.2.1⟩

/-- C4: the liquidation price is `entry × (1 − (1/leverage − mm))` for a
long and `entry × (1 + (1/leverage − mm))` for a short, with no clamping of
the degenerate bracketed term; when `entry > 0` and `1/leverage − 0.01 > 0`
(with the source's default `mm = 0.01`), the long liquidation price is
strictly below the entry price and the short one strictly above. -/
theorem liquidation_price_formula_and_bias (e L mm : ℚ) :
    calculateLiquidationPrice true e L mm = e * (1 - (1 / L - mm)) ∧
    calculateLiquidationPrice false e L mm = e * (1 + (1 / L - mm)) ∧
    (0 < e → 0 < 1 / L - 1/100 →
      calculateLiquidationPrice true e L (1/100) < e ∧
      e < calculateLiquidationPrice false e L (1/100)) := by
  refine ⟨rfl, rfl, fun he ht => ?_⟩
  have key : 0 < e * (1 / L - 1/100) := mul_pos he ht
  have h1 : calculateLiquidationPrice true e L (1/100) = e - e * (1 / L - 1/100) := by
    have hu : calculateLiquidationPrice true e L (1/100) = e * (1 - (1 / L - 1/100)) := rfl
    rw [hu]; ring
  have h2 : calculateLiquidationPrice false e L (1/100) = e + e * (1 / L - 1/100) := by
    have hu : calculateLiquidationPrice false e L (1/100) = e * (1 + (1 / L - 1/100)) := rfl
    rw [hu]; ring
  exact ⟨by linarith, by linarith⟩

/-- Witness for `liquidation_price_formula_and_bias` at entry 3000 and
leverage 10: liquidation lies strictly below (long) and above (short). -/
theorem liquidation_price_formula_and_bias_witness :
    calculateLiquidationPrice true 3000 10 (1/100) < 3000 ∧
    3000 < calculateLiquidationPrice false 3000 10 (1/100) :=
  (liquidation_price_formula_and_bias 3000 10 (1/100)).2.2 (by norm_num) (by norm_num)

/-- C2: for every market and every price, the encoded contract price equals
the price rounded to two decimals times `10^(30 − indexDecimals)`, with the
index decimals being 18, 8, 18, 18 for the ETH, BTC, ARB, LINK markets. -/
theorem contract_price_encoding (m : MarketKey) (p : ℚ) :
    (convertToContractPrice p (INDEX_TOKEN_DECIMALS m) : ℚ) =
      round2Spec p * 10 ^ (30 - INDEX_TOKEN_DECIMALS m) ∧
    INDEX_TOKEN_DECIMALS .ETHUSD = 18 ∧ INDEX_TOKEN_DECIMALS .BTCUSD = 8 ∧
    INDEX_TOKEN_DECIMALS .ARBUSD = 18 ∧ INDEX_TOKEN_DECIMALS .LINKUSD = 18 := by
  refine ⟨?_, rfl, rfl, rfl, rfl⟩
  cases m with
  | ETHUSD => exact convert_eq_round2 p 10
  | BTCUSD => exact convert_eq_round2 p 20
  | ARBUSD => exact convert_eq_round2 p 10
  | LINKUSD => exact convert_eq_round2 p 10

/-- C1: the open payload is exactly the three sub-calls (execution-fee
transfer, collateral token transfer, order creation) with a zero
`initialCollateralDeltaAmount` and market-increase order type; the close
payload is exactly the two sub-calls (execution-fee transfer, order
creation) with `initialCollateralDeltaAmount` the withdrawal amount in
6-decimal fixed point and market-decrease order type. -/
theorem order_payload_shape (op : CreateOrderParams) (cp : ClosePositionParams) :
    (buildCreateOrderCalldata op).calls =
      [ SubCall.sendWnt GMX_ORDER_VAULT EXECUTION_FEE
      , SubCall.sendTokens TOKENS_USDC GMX_ORDER_VAULT (parseUnitsQ op.collateralAmount 6)
      , SubCall.createOrder (openOrderParams op) ] ∧
    (buildCreateOrderCalldata op).calls.length = 3 ∧
    (openOrderParams op).numbers.initialCollateralDeltaAmount = 0 ∧
    (openOrderParams op).orderType = ORDER_TYPE_MarketIncrease ∧
    (buildClosePositionCalldata cp).calls =
      [ SubCall.sendWnt GMX_ORDER_VAULT EXECUTION_FEE
      , SubCall.createOrder (closeOrderParams cp) ] ∧
    (buildClosePositionCalldata cp).calls.length = 2 ∧
    (closeOrderParams cp).numbers.initialCollateralDeltaAmount =
      parseUnitsQ cp.collateralDeltaUsd 6 ∧
    (closeOrderParams cp).orderType = ORDER_TYPE_MarketDecrease :=
  ⟨rfl, rfl, rfl, rfl, rfl, rfl, rfl, rfl⟩

/-- C5 counterexample: `calculatePnL` does not return
`pnlPercent = pnl / collateral × 100`. At entry 100, mark 110, size 200 and
collateral 100 the function returns `pnlPercent = 10`, while
`pnl / collateral × 100 = 20`. -/
theorem calculate_pnl_percent_counterexample :
    (0 : ℚ) < 100 ∧
    ¬ ((calculatePnL true 100 110 200).2 = (calculatePnL true 100 110 200).1 / 100 * 100) := by
  constructor
  · norm_num
  · intro h
    have h2 : (calculatePnL true 100 110 200).2 = 10 := by
      norm_num [calculatePnL]
    have h1 : (calculatePnL true 100 110 200).1 = 20 := by
      norm_num [calculatePnL]
    rw [h1, h2] at h
    norm_num at h

/-- C5 amended: `calculatePnL` returns `pnl = (mark − entry)/entry × size`
for a long (sign inverted for a short) and
`pnlPercent = pnl / size × 100` — the raw price-move percent, independent
of collateral; the position reconstructor separately computes its
displayed `pnlPercent` as `pnl / collateral × 100`. -/
theorem calculate_pnl_amended (isLong : Bool) (e m s : ℚ) (k : MarketKey)
    (price : ℚ) (pos : RawPosition) (he : 0 < e) (hs : s ≠ 0) :
    (calculatePnL true e m s).1 = (m - e) / e * s ∧
    (calculatePnL false e m s).1 = -((m - e) / e * s) ∧
    (calculatePnL isLong e m s).2 = (calculatePnL isLong e m s).1 / s * 100 ∧
    (mkPosition k price pos).pnlPercent =
      (mkPosition k price pos).pnl / (mkPosition k price pos).collateral * 100 := by
  refine ⟨rfl, ?_, ?_, rfl⟩
  · have hu : (calculatePnL false e m s).1 = (e - m) / e * s := rfl
    rw [hu]; ring
  · cases isLong with
    | true =>
      have hu2 : (calculatePnL true e m s).2 = (m - e) / e * 100 := rfl
      have hu1 : (calculatePnL true e m s).1 = (m - e) / e * s := rfl
      rw [hu2, hu1]
      field_simp
      ring
    | false =>
      have hu2 : (calculatePnL false e m s).2 = (e - m) / e * 100 := rfl
      have hu1 : (calculatePnL false e m s).1 = (e - m) / e * s := rfl
      rw [hu2, hu1]
      field_simp
      ring

/-- Witness for `calculate_pnl_amended` at entry 100, mark 110, size 200,
with the ETH demo tuple. -/
theorem calculate_pnl_amended_witness :
    (calculatePnL true 100 110 200).1 = (110 - 100) / 100 * 200 ∧
    (calculatePnL true 100 110 200).2 = (calculatePnL true 100 110 200).1 / 200 * 100 :=
  ⟨(calculate_pnl_amended true 100 110 200 .ETHUSD 3000 ethRawLong
      (by norm_num) (by norm_num)).1,
   (calculate_pnl_amended true 100 110 200 .ETHUSD 3000 ethRawLong
      (by norm_num) (by norm_num)).2.2.1⟩

/-- C6: the reconstructor converts `sizeInTokens` with a hard-coded 18
decimal places for every market, so for the BTC market (index decimals 8)
the derived entry price disagrees with the specified
native-precision derivation: one WBTC of size at 60000 USD yields entry
price `6 × 10^14` instead of 60000. -/
theorem entry_price_btc_decimals_bug :
    (mkPosition .BTCUSD 60000 btcRawLong).entryPrice = 6 * 10 ^ 14 ∧
    specEntryPrice .BTCUSD btcRawLong.numbers.sizeInUsd btcRawLong.numbers.sizeInTokens = 60000 ∧
    (mkPosition .BTCUSD 60000 btcRawLong).entryPrice ≠
      specEntryPrice .BTCUSD btcRawLong.numbers.sizeInUsd btcRawLong.numbers.sizeInTokens ∧
    positionsLoop demoPriceOf [btcRawLong] = [mkPosition .BTCUSD 60000 btcRawLong] := by
  have h1 : (mkPosition .BTCUSD 60000 btcRawLong).entryPrice = 6 * 10 ^ 14 := by
    have hu : (mkPosition .BTCUSD 60000 btcRawLong).entryPrice =
        ((60000 * 10 ^ 30 : ℕ) : ℚ) / 10 ^ 30 / (((10 ^ 8 : ℕ) : ℚ) / 10 ^ 18) := rfl
    rw [hu]
    push_cast
    norm_num
  have h2 : specEntryPrice .BTCUSD btcRawLong.numbers.sizeInUsd
      btcRawLong.numbers.sizeInTokens = 60000 := by
    have hu : specEntryPrice .BTCUSD btcRawLong.numbers.sizeInUsd
        btcRawLong.numbers.sizeInTokens =
        ((60000 * 10 ^ 30 : ℕ) : ℚ) / 10 ^ 30 / (((10 ^ 8 : ℕ) : ℚ) / 10 ^ 8) := rfl
    rw [hu]
    push_cast
    norm_num
  refine ⟨h1, h2, ?_, ?_⟩
  · rw [h1, h2]
    norm_num
  · simp [positionsLoop, market_key_of_btcRawLong, demoPriceOf]
    norm_num [btcRawLong_size]

/-- C7: the payload builders perform no price validation: an intent with
price 0 is not rejected — both builders return a payload whose order
record encodes `acceptablePrice = 0`. -/
theorem zero_price_payload_not_rejected :
    (buildCreateOrderCalldata zeroPriceOpenIntent).calls.length = 3 ∧
    (openOrderParams zeroPriceOpenIntent).numbers.acceptablePrice = 0 ∧
    (buildClosePositionCalldata zeroPriceCloseIntent).calls.length = 2 ∧
    (closeOrderParams zeroPriceCloseIntent).numbers.acceptablePrice = 0 := by
  refine ⟨rfl, ?_, rfl, ?_⟩
  · show convertToContractPrice 0 18 = 0
    exact convertToContractPrice_zero 18
  · show convertToContractPrice 0 18 = 0
    exact convertToContractPrice_zero 18

/-- C8: the snapshot function is total and follows the fallback chain — a
successful primary price is used as-is; on primary failure the secondary
price is used; with both unavailable the snapshot reports price 0 with
high/low degraded to `price × 1.02` and `price × 0.98`; and the batched
fetch always yields all four markets' snapshots in order, whatever the
per-market outcomes. -/
theorem market_data_fallback_policy (m : MarketKey) (cd : Option CoinData)
    (p : ℚ) (c : CoinData) (chainlink : MarketKey → Option ℚ)
    (hist : MarketKey → Option CoinData) :
    (getMarketData m (some p) cd).price = p ∧
    (getMarketData m none (some c)).price = c.price ∧
    (getMarketData m none none).price = 0 ∧
    (getMarketData m none none).high24h = (getMarketData m none none).price * (102/100) ∧
    (getMarketData m none none).low24h = (getMarketData m none none).price * (98/100) ∧
    (getAllMarkets chainlink hist).map (fun d => d.market) = marketsList ∧
    (getAllMarkets chainlink hist).length = 4 :=
  ⟨rfl, rfl, rfl, rfl, rfl, rfl, rfl⟩

/-- C9: when every tracked market's price fetch succeeds, the reconstructor
keeps exactly the tuples on a tracked market with nonzero size, in order,
and drops all others; the entry point returns the same list for a
successful read and the empty list for a failed one. -/
theorem positions_kept_exactly (priceOf : MarketKey → Option ℚ)
    (raw : List RawPosition) (h : ∀ k, (priceOf k).isSome) :
    positionsLoop priceOf raw = (raw.filter trackedNonzero).map (mkPositionOf priceOf) ∧
    getPositions priceOf (some raw) = positionsLoop priceOf raw ∧
    getPositions priceOf none = [] := by
  refine ⟨?_, ?_, rfl⟩
  · induction raw with
    | nil => rfl
    | cons pos rest ih =>
      cases hmk : MARKET_ADDRESS_TO_KEY (jsToLower pos.addresses.market) with
      | none =>
        have ht : trackedNonzero pos = false := by
          simp [trackedNonzero, hmk]
        simp [positionsLoop, hmk, List.filter_cons, ht, ih]
      | some k =>
        obtain ⟨v, hv⟩ := Option.isSome_iff_exists.mp (h k)
        by_cases hz : pos.numbers.sizeInUsd = 0
        · have ht : trackedNonzero pos = false := by
            simp [trackedNonzero, hz]
          have hcond : (pos.numbers.sizeInUsd : ℚ) / 10 ^ 30 = 0 := by
            rw [hz]; norm_num
          simp [positionsLoop, hmk, hv, hcond, List.filter_cons, ht, ih]
        · have ht : trackedNonzero pos = true := by
            simp [trackedNonzero, hmk, hz]
          have hcond : ¬ ((pos.numbers.sizeInUsd : ℚ) / 10 ^ 30 = 0) := by
            rw [div_eq_zero_iff]
            norm_num [hz]
          simp [positionsLoop, hmk, hv, hcond, List.filter_cons, ht, ih,
            mkPositionOf]
  · cases raw with
    | nil => rfl
    | cons pos rest => rfl

/-- Witness for `positions_kept_exactly`: a read of three tuples — two open
tracked positions and one zero-size slot — reconstructs exactly 2 entries. -/
theorem positions_kept_exactly_witness :
    positionsLoop demoPriceOf [ethRawLong, ethRawClosed, btcRawLong] =
      (([ethRawLong, ethRawClosed, btcRawLong].filter trackedNonzero).map
        (mkPositionOf demoPriceOf)) ∧
    (positionsLoop demoPriceOf [ethRawLong, ethRawClosed, btcRawLong]).length = 2 :=
  ⟨(positions_kept_exactly demoPriceOf [ethRawLong, ethRawClosed, btcRawLong]
      (by intro k; cases k <;> rfl)).1,
   by rw [demo_loop_eval]; rfl⟩

/-- C10: both payload builders attach the fixed native value
`0.0003 × 10^18 = 3 × 10^14` wei and encode the same constant as the order
record's `executionFee`, independent of every intent field; the trade
preview instead folds a price-proportional `0.0001 × price` display fee
into its `fees` output, which therefore varies with the price and differs
from the fixed constant. -/
theorem execution_fee_constant (op : CreateOrderParams) (cp : ClosePositionParams)
    (tp : TradeParams) (p1 p2 : ℚ) :
    EXECUTION_FEE = 3 * 10 ^ 14 ∧
    (buildCreateOrderCalldata op).value = 3 * 10 ^ 14 ∧
    (openOrderParams op).numbers.executionFee = 3 * 10 ^ 14 ∧
    (buildClosePositionCalldata cp).value = 3 * 10 ^ 14 ∧
    (closeOrderParams cp).numbers.executionFee = 3 * 10 ^ 14 ∧
    (calculateTradePreview tp p1).fees =
      tp.collateral * tp.leverage * (5/10000) + (1/10000) * p1 ∧
    (p1 ≠ p2 →
      (calculateTradePreview tp p1).fees ≠ (calculateTradePreview tp p2).fees) := by
  refine ⟨EXECUTION_FEE_eq, EXECUTION_FEE_eq, EXECUTION_FEE_eq, EXECUTION_FEE_eq,
    EXECUTION_FEE_eq, rfl, fun hne hcontra => hne ?_⟩
  have hf1 : (calculateTradePreview tp p1).fees =
      tp.collateral * tp.leverage * (5/10000) + (1/10000) * p1 := rfl
  have hf2 : (calculateTradePreview tp p2).fees =
      tp.collateral * tp.leverage * (5/10000) + (1/10000) * p2 := rfl
  rw [hf1, hf2] at hcontra
  have : (1/10000 : ℚ) * p1 = (1/10000) * p2 := by linarith
  have h4 : (0 : ℚ) < 1/10000 := by norm_num
  exact mul_left_cancel₀ (ne_of_gt h4) this

/-- Witness for `execution_fee_constant`: at prices 3000 and 6000 the
preview fees differ while the attached value is the fixed constant. -/
theorem execution_fee_constant_witness :
    (buildCreateOrderCalldata zeroPriceOpenIntent).value = 3 * 10 ^ 14 ∧
    (calculateTradePreview ⟨.ETHUSD, true, 100, 10⟩ 3000).fees ≠
      (calculateTradePreview ⟨.ETHUSD, true, 100, 10⟩ 6000).fees :=
  ⟨(execution_fee_constant zeroPriceOpenIntent zeroPriceCloseIntent
      ⟨.ETHUSD, true, 100, 10⟩ 3000 6000).2.1,
   (execution_fee_constant zeroPriceOpenIntent zeroPriceCloseIntent
      ⟨.ETHUSD, true, 100, 10⟩ 3000 6000).2.2.2.2.2.2 (by norm_num)⟩

end FixrPerps
